import Mathlib

/-!
Verification of the user/session controller of the nezha dashboard backend
(`cmd/dashboard/controller/user.go`), shallowly embedded in Lean.

Request binding, the HTTP layer and the durable store engine are external
collaborators; handlers are modelled as pure functions over an explicit
database state, taking the already-bound request form as an argument.
Components that live outside the given source file (the credential hasher,
the block gate) are either abstracted as parameters or modelled from the
spec, as marked.
-/

namespace Nezha

/-- Modelled from the spec: `model.UserRole` is not in src; the spec (§3, §9)
describes role as a closed variant \x7bmember, administrator\x7d. The source
assigns `model.RoleMember` on creation. -/
inductive Role where
  | admin
  | member
  deriving DecidableEq

/-- Account record `model.User`. `password` holds the secret hash. -/
structure User where
  id : Nat
  username : String
  password : String
  role : Role
  deriving DecidableEq

/-- Errors returned by handlers. `localized key` stands for
`singleton.Localizer.ErrorT(key)`; `wrapped msg` stands for the error built by
`newGormError("%v", err)`; `external msg` stands for an error bubbled up from
an external collaborator (e.g. the hasher). -/
inductive Err where
  | localized (key : String)
  | wrapped (msg : String)
  | external (msg : String)
  deriving DecidableEq

/-- Message text of an error, as `%v` formatting would render it. -/
def Err.msg : Err → String
  | .localized k => k
  | .wrapped m => m
  | .external m => m

/-- Form `model.UserForm`: the bound body of `POST /user`. The handler reads only
`Username` and `Password` from it. -/
structure UserForm where
  username : String
  password : String
  deriving DecidableEq

/-- Form `model.ProfileForm`: the bound body of `POST /profile`. -/
structure ProfileForm where
  originalPassword : String
  newPassword : String
  newUsername : String
  deriving DecidableEq

/-- Payload `model.Profile` of `GET /profile`. -/
structure Profile where
  user : User
  loginIP : String
  deriving DecidableEq

/-- Abstract credential hasher standing for the bcrypt calls. `generate` is
`bcrypt.GenerateFromPassword` (fallible); `verify h s` is true exactly when
`bcrypt.CompareHashAndPassword(h, s)` returns nil. -/
structure Hasher where
  generate : String → Except Err String
  verify : String → String → Bool

/-- The durable user store. `nextId` models the auto-assigned primary key. -/
structure DB where
  users : List User
  nextId : Nat
  deriving DecidableEq

/-- Save semantics of `DB.Save(&user)`: update the record with the same primary key, or insert
it if absent (gorm Save-by-primary-key semantics). -/
def dbSave (u : User) (db : DB) : DB :=
  if db.users.any (fun v => v.id == u.id) then
    { db with users := db.users.map (fun v => if v.id == u.id then u else v) }
  else
    { db with users := db.users ++ [u] }

/-- Go `len` on a string counts bytes, not runes. -/
def goLen (s : String) : Nat := s.utf8ByteSize

/-- Handler of `GET /profile` (user.go `getProfile`): fails with the
localized "unauthorized" error when no authorized user is attached to the
request context, otherwise returns the user together with the real IP taken
from the context. -/
def getProfile (auth : Option User) (realIP : String) : Except Err Profile :=
  match auth with
  | none => .error (.localized "unauthorized")
  | some u => .ok { user := u, loginIP := realIP }

/-- Handler of `POST /profile` (user.go `updateProfile`): requires an
authorized user, verifies the original password against the stored hash,
then hashes the new password and saves the updated record. -/
def updateProfile (hasher : Hasher) (auth : Option User) (pf : ProfileForm)
    (db : DB) : Except Err Unit × DB :=
  match auth with
  | none => (.error (.localized "unauthorized"), db)
  | some user =>
    if hasher.verify user.password pf.originalPassword then
      match hasher.generate pf.newPassword with
      | .error e => (.error e, db)
      | .ok hash =>
        let user' := { user with username := pf.newUsername, password := hash }
        (.ok (), dbSave user' db)
    else
      (.error (.localized "incorrect password"), db)

/-- Handler of `GET /user` (user.go `listUser`): `DB.Omit("password").Find`
selects every user but leaves the password column unselected, so each
returned record carries the zero value `""` in its password field. -/
def listUser (db : DB) : List User :=
  db.users.map (fun u => { u with password := "" })

/-- Handler of `POST /user` (user.go `createUser`): rejects passwords of
byte-length < 6, then empty usernames; otherwise hashes the password and
creates the record with role fixed to member, returning the new id. -/
def createUser (hasher : Hasher) (uf : UserForm) (db : DB) :
    Except Err Nat × DB :=
  if goLen uf.password < 6 then
    (.error (.localized "password length must be greater than 6"), db)
  else if uf.username == "" then
    (.error (.localized "username must not be empty"), db)
  else
    match hasher.generate uf.password with
    | .error e => (.error e, db)
    | .ok hash =>
      let u : User := { id := db.nextId, username := uf.username,
                        password := hash, role := .member }
      (.ok u.id, { users := db.users ++ [u], nextId := db.nextId + 1 })

/-- Handler of `POST /batch-delete/user` (user.go `batchDeleteUser`): rejects
the whole batch with the localized self-deletion error when the id list
contains the authorized user's own id, before invoking `OnUserDelete`.
`OnUserDelete` lives outside the given source, so the handler is
parameterized over it (`onUserDelete` returns an optional error and the
updated store, covering any behavior of the real dispatcher). -/
def batchDeleteUser (onUserDelete : List Nat → DB → Option Err × DB)
    (auth : User) (ids : List Nat) (db : DB) : Except Err Unit × DB :=
  if ids.contains auth.id then
    (.error (.localized "cannot delete yourself"), db)
  else
    match onUserDelete ids db with
    | (some e, db') => (.error e, db')
    | (none, db') => (.ok (), db')

/-- Modelled from the spec: `model.OnlineUser` is not in src; per spec §3 a
Session carries the owning identity, its originating network address and a
connection timestamp. -/
structure OnlineUser where
  userId : Nat
  ip : String
  connectedAt : Nat
  deriving DecidableEq

/-- Envelope `model.Pagination`: the `\x7boffset, limit, total\x7d` envelope of list
responses. -/
structure Pagination where
  offset : Int
  limit : Int
  total : Int
  deriving DecidableEq

/-- Response `model.Value[[]*model.OnlineUser]`: payload plus pagination. -/
structure OnlineUserValue where
  value : List OnlineUser
  pagination : Pagination
  deriving DecidableEq

/-- Digits of a base-10 numeral folded into a Nat; `none` when a non-digit
appears. -/
def foldDigits (cs : List Char) : Option Nat :=
  cs.foldl
    (fun acc c =>
      match acc with
      | none => none
      | some n => if c.isDigit then some (n * 10 + (c.toNat - 48)) else none)
    (some 0)

/-- Go `strconv.Atoi`: an optional sign followed by at least one decimal
digit; any other shape, the empty string, and values outside the 64-bit int
range yield an error (`none`). -/
def goAtoi (s : String) : Option Int :=
  let cs := s.toList
  let signAndDigits : Bool × List Char :=
    match cs with
    | '-' :: rest => (true, rest)
    | '+' :: rest => (false, rest)
    | _ => (false, cs)
  let neg := signAndDigits.1
  let ds := signAndDigits.2
  if ds.isEmpty then none
  else
    match foldDigits ds with
    | none => none
    | some n =>
      let v : Int := if neg then -(n : Int) else (n : Int)
      if v < -(2 ^ 63) ∨ (2 ^ 63) ≤ v then none else some v

/-- Handler of `GET /online-user` (user.go `listOnlineUser`): parses the
`limit` and `offset` query strings with Atoi, replacing a parse failure or a
limit below 1 by 25 and a parse failure or a negative offset by 0, queries
the registry with the clamped pair and echoes it in the pagination envelope
together with the registry count. The registry reads (`GetOnlineUsers`,
`GetOnlineUserCount`) live outside the given source and are passed in. The
handler never fails: it is total and the Go function always returns a nil
error. -/
def listOnlineUser (getOnlineUsers : Int → Int → List OnlineUser)
    (onlineUserCount : Nat) (limitStr offsetStr : String) : OnlineUserValue :=
  let limit : Int :=
    match goAtoi limitStr with
    | none => 25
    | some l => if l < 1 then 25 else l
  let offset : Int :=
    match goAtoi offsetStr with
    | none => 0
    | some o => if o < 0 then 0 else o
  { value := getOnlineUsers limit offset,
    pagination := { offset := offset, limit := limit,
                    total := (onlineUserCount : Int) } }

/-- State owned by the Access-Control Gate and the Registry: the blocked
address set and the live sessions. -/
structure GateState where
  blockSet : List String
  sessions : List OnlineUser
  deriving DecidableEq

/-- Modelled from the spec: `singleton.BlockByIPs` (the Gate.Block of §4.2)
is not in src. Per the spec it validates each address against well-formedness
(abstracted here as the predicate `isValidAddr`), fails with a validation
error on malformed input before any mutation, and otherwise unions the
addresses into the BlockSet and evicts every session whose originating
address is in the newly blocked set. -/
def blockByIPs (isValidAddr : String → Bool) (list : List String)
    (st : GateState) : Option Err × GateState :=
  if list.all isValidAddr then
    (none,
      { blockSet := st.blockSet ++ list.filter (fun a => ¬ st.blockSet.contains a),
        sessions := st.sessions.filter (fun s => ¬ list.contains s.ip) })
  else
    (some (.localized "malformed address"), st)

/-- Handler of `PATCH /online-user/batch-block` (user.go
`batchBlockOnlineUser`): calls `BlockByIPs` with the bound address list and
wraps any error it returns through `newGormError("%v", err)`. -/
def batchBlockOnlineUser (isValidAddr : String → Bool) (list : List String)
    (st : GateState) : Except Err Unit × GateState :=
  match blockByIPs isValidAddr list st with
  | (some e, st') => (.error (.wrapped e.msg), st')
  | (none, st') => (.ok (), st')

/-! Concrete fixtures used by witness theorems. -/

/-- Deterministic stand-in hasher for concrete evaluations: the hash of `s`
is `"h:" ++ s` and verification checks exactly that shape. -/
def testHasher : Hasher :=
  { generate := fun s => .ok ("h:" ++ s),
    verify := fun h s => h == "h:" ++ s }

/-- Sample stored account. -/
def sampleUser : User :=
  { id := 1, username := "ops", password := "h:pw0", role := .admin }

/-- Sample store holding only `sampleUser`. -/
def sampleDB : DB := { users := [sampleUser], nextId := 2 }

/-- Empty store. -/
def emptyDB : DB := { users := [], nextId := 1 }

/-! Claim theorems. -/

/-- Claim C1: for every batch-delete request whose id list contains the
authorized user's own id, `batchDeleteUser` returns the self-deletion
conflict error and the store is returned unchanged — for every possible
behavior of `OnUserDelete`, so the deletion dispatcher is never invoked. -/
theorem batchDeleteUser_self_conflict
    (onUserDelete : List Nat → DB → Option Err × DB) (auth : User)
    (ids : List Nat) (db : DB) (h : auth.id ∈ ids) :
    batchDeleteUser onUserDelete auth ids db
      = (.error (.localized "cannot delete yourself"), db) := by
  unfold batchDeleteUser
  rw [if_pos (List.elem_eq_true_of_mem h)]

/-- Witness for C1 at a concrete input. -/
theorem batchDeleteUser_self_conflict_witness :
    (1 : Nat) ∈ [2, 1, 3]
    ∧ batchDeleteUser (fun _ db => (none, db)) sampleUser [2, 1, 3] sampleDB
        = (.error (.localized "cannot delete yourself"), sampleDB) :=
  ⟨by decide,
   batchDeleteUser_self_conflict (fun _ db => (none, db)) sampleUser
     [2, 1, 3] sampleDB (by decide)⟩

/-- Claim C2: `listOnlineUser` never fails (it is total); the registry is
queried with exactly the limit and offset echoed in the pagination envelope,
the total is the registry count, an unparsable or non-positive limit becomes
25, a parsable limit of at least 1 is kept, an unparsable or negative offset
becomes 0, and a parsable non-negative offset is kept. -/
theorem listOnlineUser_clamps (g : Int → Int → List OnlineUser) (c : Nat)
    (ls os : String) :
    (listOnlineUser g c ls os).value
        = g (listOnlineUser g c ls os).pagination.limit
            (listOnlineUser g c ls os).pagination.offset
    ∧ (listOnlineUser g c ls os).pagination.total = (c : Int)
    ∧ ((goAtoi ls = none ∨ ∃ l, goAtoi ls = some l ∧ l < 1) →
        (listOnlineUser g c ls os).pagination.limit = 25)
    ∧ (∀ l, goAtoi ls = some l → 1 ≤ l →
        (listOnlineUser g c ls os).pagination.limit = l)
    ∧ ((goAtoi os = none ∨ ∃ o, goAtoi os = some o ∧ o < 0) →
        (listOnlineUser g c ls os).pagination.offset = 0)
    ∧ (∀ o, goAtoi os = some o → 0 ≤ o →
        (listOnlineUser g c ls os).pagination.offset = o) := by
  refine ⟨rfl, rfl, ?_, ?_, ?_, ?_⟩
  · rintro (h | ⟨l, hl, hlt⟩)
    · simp [listOnlineUser, h]
    · simp [listOnlineUser, hl, hlt]
  · intro l hl hle
    simp [listOnlineUser, hl, show ¬ l < 1 by omega]
  · rintro (h | ⟨o, ho, hlt⟩)
    · simp [listOnlineUser, h]
    · simp [listOnlineUser, ho, hlt]
  · intro o ho hle
    simp [listOnlineUser, ho, show ¬ o < 0 by omega]

/-- Witness for C2 at concrete malformed inputs. -/
theorem listOnlineUser_clamps_witness :
    (listOnlineUser (fun _ _ => []) 5 "abc" "-3").pagination.limit = 25
    ∧ (listOnlineUser (fun _ _ => []) 5 "abc" "-3").pagination.offset = 0 :=
  ⟨(listOnlineUser_clamps (fun _ _ => []) 5 "abc" "-3").2.2.1
     (Or.inl (by decide)),
   (listOnlineUser_clamps (fun _ _ => []) 5 "abc" "-3").2.2.2.2.1
     (Or.inr ⟨-3, by decide, by decide⟩)⟩

/-- Counterexample for C3: `updateProfile` performs no validation of the new
secret or the new display name. With a correct current secret, a rotation to
the 2-byte secret "ab" and the empty display name succeeds, and the stored
record carries the hash of a secret of raw length below 6 and an empty name. -/
theorem updateProfile_no_validation_cex :
    (updateProfile testHasher (some sampleUser)
        { originalPassword := "pw0", newPassword := "ab", newUsername := "" }
        sampleDB).1 = .ok ()
    ∧ (updateProfile testHasher (some sampleUser)
        { originalPassword := "pw0", newPassword := "ab", newUsername := "" }
        sampleDB).2.users
        = [{ id := 1, username := "", password := "h:ab", role := .admin }]
    ∧ goLen "ab" < 6 := by
  refine ⟨rfl, rfl, by decide⟩

/-- Claim C3 as amended: only the creation path enforces the account
invariants. `createUser` rejects a secret of raw byte-length below 6, and
rejects an empty display name when the secret is long enough; `updateProfile`
enforces neither — whenever the current secret verifies and hashing succeeds,
it stores whatever new secret hash and display name were supplied. -/
theorem create_validates_update_does_not (hasher : Hasher) (uf : UserForm)
    (pf : ProfileForm) (user : User) (db db2 : DB) :
    (goLen uf.password < 6 →
      createUser hasher uf db
        = (.error (.localized "password length must be greater than 6"), db))
    ∧ (uf.username = "" → 6 ≤ goLen uf.password →
      createUser hasher uf db
        = (.error (.localized "username must not be empty"), db))
    ∧ (∀ h, hasher.verify user.password pf.originalPassword = true →
        hasher.generate pf.newPassword = .ok h →
        updateProfile hasher (some user) pf db2
          = (.ok (),
             dbSave { user with username := pf.newUsername, password := h }
               db2)) := by
  refine ⟨?_, ?_, ?_⟩
  · intro hlt
    simp [createUser, hlt]
  · intro hname hge
    simp [createUser, hname, show ¬ goLen uf.password < 6 by omega]
  · intro h hv hg
    simp [updateProfile, hv, hg]

/-- Witness for the amended C3 at concrete inputs. -/
theorem create_validates_update_does_not_witness :
    createUser testHasher { username := "ops", password := "ab" } emptyDB
      = (.error (.localized "password length must be greater than 6"), emptyDB)
    ∧ createUser testHasher { username := "", password := "abcdef" } emptyDB
      = (.error (.localized "username must not be empty"), emptyDB)
    ∧ updateProfile testHasher (some sampleUser)
        { originalPassword := "pw0", newPassword := "ab", newUsername := "x" }
        sampleDB
      = (.ok (),
         dbSave { sampleUser with username := "x", password := "h:ab" }
           sampleDB) :=
  ⟨(create_validates_update_does_not testHasher
      { username := "ops", password := "ab" }
      { originalPassword := "pw0", newPassword := "ab", newUsername := "x" }
      sampleUser emptyDB sampleDB).1 (by decide),
   (create_validates_update_does_not testHasher
      { username := "", password := "abcdef" }
      { originalPassword := "pw0", newPassword := "ab", newUsername := "x" }
      sampleUser emptyDB sampleDB).2.1 rfl (by decide),
   (create_validates_update_does_not testHasher
      { username := "ops", password := "ab" }
      { originalPassword := "pw0", newPassword := "ab", newUsername := "x" }
      sampleUser emptyDB sampleDB).2.2 "h:ab" (by decide) rfl⟩

/-- Claim C4: in `batchBlockOnlineUser` every submitted address is validated
for well-formedness (abstracted as the predicate the gate is given): if any
address in the list is malformed the operation fails with the validation
error, wrapped by the handler, and the gate state is unchanged; if all
addresses are well-formed no validation error occurs. -/
theorem batchBlockOnlineUser_validates (isValidAddr : String → Bool)
    (list : List String) (st : GateState) :
    ((∃ a ∈ list, isValidAddr a = false) →
      batchBlockOnlineUser isValidAddr list st
        = (.error (.wrapped "malformed address"), st))
    ∧ ((∀ a ∈ list, isValidAddr a = true) →
      (batchBlockOnlineUser isValidAddr list st).1 = .ok ()) := by
  constructor
  · rintro ⟨a, ha, hbad⟩
    have hall : list.all isValidAddr = false := by
      rw [List.all_eq_false]
      exact ⟨a, ha, by simp [hbad]⟩
    simp [batchBlockOnlineUser, blockByIPs, hall, Err.msg]
  · intro hgood
    have hall : list.all isValidAddr = true := List.all_eq_true.mpr hgood
    simp [batchBlockOnlineUser, blockByIPs, hall]

/-- Witness for C4 with a concrete malformed address in the list. -/
theorem batchBlockOnlineUser_validates_witness :
    batchBlockOnlineUser (fun a => a != "") ["10.0.0.1", ""]
        { blockSet := [], sessions := [] }
      = (.error (.wrapped "malformed address"),
         { blockSet := [], sessions := [] }) :=
  (batchBlockOnlineUser_validates (fun a => a != "") ["10.0.0.1", ""]
      { blockSet := [], sessions := [] }).1 ⟨"", by decide, by decide⟩

/-- Claim C5: when the submitted secret has raw byte-length below 6,
`createUser` returns the short-password validation error and the store is
returned unchanged, so no account is persisted. -/
theorem createUser_short_secret (hasher : Hasher) (uf : UserForm) (db : DB)
    (h : goLen uf.password < 6) :
    createUser hasher uf db
      = (.error (.localized "password length must be greater than 6"), db) := by
  simp [createUser, h]

/-- Witness for C5 with a 2-byte secret. -/
theorem createUser_short_secret_witness :
    createUser testHasher { username := "ops", password := "ab" } sampleDB
      = (.error (.localized "password length must be greater than 6"),
         sampleDB) :=
  createUser_short_secret testHasher { username := "ops", password := "ab" }
    sampleDB (by decide)

/-- Claim C6: `updateProfile` verifies the supplied current secret against
the stored hash: on mismatch it returns the incorrect-password error with the
store unchanged (no save happens); when verification succeeds and hashing the
new secret yields a hash, it saves the record updated with that fresh hash
and the new display name. -/
theorem updateProfile_verify (hasher : Hasher) (user : User)
    (pf : ProfileForm) (db : DB) :
    (hasher.verify user.password pf.originalPassword = false →
      updateProfile hasher (some user) pf db
        = (.error (.localized "incorrect password"), db))
    ∧ (∀ h, hasher.verify user.password pf.originalPassword = true →
        hasher.generate pf.newPassword = .ok h →
        updateProfile hasher (some user) pf db
          = (.ok (),
             dbSave { user with username := pf.newUsername, password := h }
               db)) := by
  constructor
  · intro hv
    simp [updateProfile, hv]
  · intro h hv hg
    simp [updateProfile, hv, hg]

/-- Witness for C6: a wrong current secret is rejected and a correct one
leads to the saved rotation, at concrete inputs. -/
theorem updateProfile_verify_witness :
    updateProfile testHasher (some sampleUser)
        { originalPassword := "nope", newPassword := "newpw1", newUsername := "ops2" }
        sampleDB
      = (.error (.localized "incorrect password"), sampleDB)
    ∧ updateProfile testHasher (some sampleUser)
        { originalPassword := "pw0", newPassword := "newpw1", newUsername := "ops2" }
        sampleDB
      = (.ok (),
         dbSave { sampleUser with username := "ops2", password := "h:newpw1" }
           sampleDB) :=
  ⟨(updateProfile_verify testHasher sampleUser
      { originalPassword := "nope", newPassword := "newpw1", newUsername := "ops2" }
      sampleDB).1 (by decide),
   (updateProfile_verify testHasher sampleUser
      { originalPassword := "pw0", newPassword := "newpw1", newUsername := "ops2" }
      sampleDB).2 "h:newpw1" (by decide) rfl⟩

/-- Claim C7: `getProfile` fails with the unauthorized error when no
authenticated identity is attached to the request context, and with an
authenticated identity it returns that account together with the real IP of
the request. -/
theorem getProfile_requires_auth (u : User) (realIP : String) :
    getProfile none realIP = .error (.localized "unauthorized")
    ∧ getProfile (some u) realIP = .ok { user := u, loginIP := realIP } :=
  ⟨rfl, rfl⟩

/-- Claim C8: every record returned by `listUser` carries an empty password
field: the stored secret hash is excluded from the listing. -/
theorem listUser_omits_password_hash (db : DB) (u : User)
    (hu : u ∈ listUser db) : u.password = "" := by
  simp only [listUser, List.mem_map] at hu
  obtain ⟨v, _, heq⟩ := hu
  rw [← heq]

/-- Witness for C8 on the sample store. -/
theorem listUser_omits_password_hash_witness :
    ({ id := 1, username := "ops", password := "", role := Role.admin } : User).password
      = "" :=
  listUser_omits_password_hash sampleDB
    { id := 1, username := "ops", password := "", role := Role.admin }
    (by decide)

/-- Claim C9: whenever `createUser` succeeds, the account appended to the
store carries role member (the request form has no role field, so this holds
regardless of the request), the submitted username, the generated hash and
the next free id, which is also the returned id. -/
theorem createUser_assigns_member_role (hasher : Hasher) (uf : UserForm)
    (db db' : DB) (id : Nat)
    (hok : createUser hasher uf db = (.ok id, db')) :
    ∃ hash, hasher.generate uf.password = .ok hash
      ∧ id = db.nextId
      ∧ db'.users = db.users ++
          [{ id := db.nextId, username := uf.username, password := hash,
             role := .member }] := by
  by_cases h1 : goLen uf.password < 6
  · simp [createUser, h1] at hok
  · by_cases h2 : uf.username = ""
    · simp [createUser, h1, h2] at hok
    · rcases hg : hasher.generate uf.password with e | hash
      · simp [createUser, h1, h2, hg] at hok
      · simp [createUser, h1, h2, hg] at hok
        obtain ⟨hid, hdb⟩ := hok
        exact ⟨hash, rfl, hid.symm, by rw [← hdb]⟩

/-- Witness for C9 on a concrete successful creation. -/
theorem createUser_assigns_member_role_witness :
    ∃ hash, testHasher.generate "abcdef" = .ok hash
      ∧ (1 : Nat) = emptyDB.nextId
      ∧ ({ users := [{ id := 1, username := "ops", password := "h:abcdef",
                       role := Role.member }], nextId := 2 } : DB).users
          = emptyDB.users ++
            [{ id := emptyDB.nextId, username := "ops", password := hash,
               role := Role.member }] :=
  createUser_assigns_member_role testHasher
    { username := "ops", password := "abcdef" } emptyDB
    { users := [{ id := 1, username := "ops", password := "h:abcdef",
                  role := Role.member }], nextId := 2 } 1 rfl

/-- Claim C10: the secret-length check precedes the display-name check in
`createUser`: when the secret is shorter than 6 bytes and the username is
also empty, the error returned is the short-password one. -/
theorem createUser_secret_check_first (hasher : Hasher) (uf : UserForm)
    (db : DB) (hpw : goLen uf.password < 6) (_hname : uf.username = "") :
    (createUser hasher uf db).1
      = .error (.localized "password length must be greater than 6") := by
  simp [createUser, hpw]

/-- Witness for C10 with both violations present. -/
theorem createUser_secret_check_first_witness :
    (createUser testHasher { username := "", password := "ab" } sampleDB).1
      = .error (.localized "password length must be greater than 6") :=
  createUser_secret_check_first testHasher
    { username := "", password := "ab" } sampleDB (by decide) rfl

end Nezha
